import Mathlib

/-!
Verification development for the `django-portfolio` data model
(`src/portfolio/models.py`).

The persisted schema is embedded shallowly: each model class becomes a row
structure, the database becomes a `DB` record of row lists, and each
create/delete operation becomes a function `DB → Except DbError (…)` that
implements the declared field defaults, validation (`max_length`, `choices`,
`max_digits`), foreign-key existence, and the declared `on_delete` policies
(`PROTECT` rejects the delete while referencing rows exist; `CASCADE` removes
dependents, and a `PROTECT` edge pointing at a collected dependent also rejects
the whole delete, as the framework's deletion collector does).

Fixed-point decimal fields (`DecimalField(max_digits = m, decimal_places = 6)`,
and the money amount of `MoneyField`) are embedded as integers scaled by 10^6,
so a stored value is exact; the `max_digits` bound becomes `|v| < 10^m` on the
scaled integer.  Dates are opaque timestamps (`Nat`).
-/

namespace PortfolioModel

/-- Row of `Portfolio` (`models.py` line 7): `name = CharField(max_length=50,
default='Untitled')`. -/
structure PortfolioRow where
  id : Nat
  name : String
deriving Repr, DecidableEq

/-- Subtype payload of an `Asset` row: the multi-table-inheritance children
`Stock` (adds `sector`), `Bond`, `Fund` (adds `ter`, `DecimalField(3,2)`
embedded as an integer scaled by 10^2).  The `funds` many-to-many links of
`Stock` and `Bond` live in the separate `fundLinks` through table of `DB`. -/
inductive AssetKind where
  | base : AssetKind
  | stock (sector : String) : AssetKind
  | bond : AssetKind
  | fund (ter : Int) : AssetKind
deriving Repr, DecidableEq

/-- Row of `Asset` (`models.py` line 29) and its subtype payload. -/
structure AssetRow where
  id : Nat
  name : String
  isin : String
  issuer : String
  cusip : String
  wkn : String
  valor : Option Nat
  kind : AssetKind
deriving Repr, DecidableEq

/-- Row of `SharePrice` (`models.py` line 110): `asset` is a foreign key with
`on_delete=CASCADE`; `price` is a `MoneyField(max_digits=12, decimal_places=6,
default_currency='USD')`, embedded as amount scaled by 10^6 plus currency. -/
structure SharePriceRow where
  id : Nat
  asset : Nat
  date : Nat
  priceAmount : Int
  priceCurrency : String
deriving Repr, DecidableEq

/-- Row of `Investment` (`models.py` line 136): `portfolio` and `asset` are
foreign keys, both `on_delete=PROTECT`. -/
structure InvestmentRow where
  id : Nat
  portfolio : Nat
  asset : Nat
deriving Repr, DecidableEq

/-! Transaction type codes of class `TransactionType` (`models.py` lines
160-167), exactly the stored values of the source. -/

namespace TransactionType

def BUY : String := "BUY"

def SALE : String := "SAL"

def REINVESTMENT : String := "REI"

def REDEMPTION : String := "RED"

def DEPOT_FEE : String := "DPF"

end TransactionType

/-- Row of `Transaction` (`models.py` line 170): `investment` is a foreign key
with `on_delete=CASCADE`, `share_price` one with `on_delete=PROTECT`;
`exchange_rate` is a nullable `DecimalField(12,6)` and `volume` a
`DecimalField(15,6)`, both embedded as integers scaled by 10^6. -/
structure TransactionRow where
  id : Nat
  investment : Nat
  transaction_type : String
  transaction_date : Nat
  share_price : Nat
  exchange_rate : Option Int
  volume : Int
deriving Repr, DecidableEq

/-- The persisted database state: one list of rows per model class, plus the
many-to-many through table of the `funds` relations of `Stock` and `Bond`
(pairs of owner asset id and fund asset id). -/
structure DB where
  portfolios : List PortfolioRow
  assets : List AssetRow
  sharePrices : List SharePriceRow
  investments : List InvestmentRow
  transactions : List TransactionRow
  fundLinks : List (Nat × Nat)
deriving Repr, DecidableEq

/-- Outcomes of a rejected write: a protected-delete violation, a field
validation failure, or a dangling reference on create. -/
inductive DbError where
  | protectedError
  | validationError
  | notFound
deriving Repr, DecidableEq

/-- Fresh autoincrement id: one more than the largest id in use. -/
def freshId (ids : List Nat) : Nat := ids.foldr max 0 + 1

/-- Bound of a `DecimalField(max_digits = digits, decimal_places = 6)` on the
scaled integer representation. -/
def decimalOk (digits : Nat) (v : Int) : Bool := v.natAbs < 10 ^ digits

/-- Membership of a string in the `choices` of `Transaction.transaction_type`
(`models.py` lines 188-194): exactly the five `TransactionType` codes. -/
def isValidTransactionType (tt : String) : Bool :=
  tt == TransactionType.BUY || tt == TransactionType.SALE ||
  tt == TransactionType.REINVESTMENT || tt == TransactionType.REDEMPTION ||
  tt == TransactionType.DEPOT_FEE

/-- Creating a `Portfolio`: `name` defaults to `'Untitled'` when absent and is
validated against `max_length=50`. -/
def createPortfolio (db : DB) (name : Option String) :
    Except DbError (DB × PortfolioRow) :=
  let n := name.getD "Untitled"
  if n.length ≤ 50 then
    let row : PortfolioRow := ⟨freshId (db.portfolios.map (·.id)), n⟩
    .ok ({ db with portfolios := db.portfolios ++ [row] }, row)
  else .error .validationError

/-- Creating a `SharePrice` for an asset: the `asset` foreign key must exist,
the money amount respects `max_digits=12`, and the row is appended (the ledger
has no update operation, so existing rows are never touched). -/
def createSharePrice (db : DB) (aid : Nat) (date : Nat) (amount : Int)
    (currency : String) : Except DbError (DB × SharePriceRow) :=
  if !(decimalOk 12 amount) then .error .validationError
  else if !(db.assets.any (·.id == aid)) then .error .notFound
  else
    let row : SharePriceRow :=
      ⟨freshId (db.sharePrices.map (·.id)), aid, date, amount, currency⟩
    .ok ({ db with sharePrices := db.sharePrices ++ [row] }, row)

/-- Creating an `Investment`: both referenced rows must exist (foreign-key
integrity), otherwise the write is rejected and nothing is created. -/
def createInvestment (db : DB) (pid aid : Nat) :
    Except DbError (DB × InvestmentRow) :=
  if !(db.portfolios.any (·.id == pid)) then .error .notFound
  else if !(db.assets.any (·.id == aid)) then .error .notFound
  else
    let row : InvestmentRow := ⟨freshId (db.investments.map (·.id)), pid, aid⟩
    .ok ({ db with investments := db.investments ++ [row] }, row)

/-- Creating a `Transaction`: `transaction_type` defaults to
`TransactionType.BUY` when absent and must be one of the declared `choices`;
`volume` and `exchange_rate` respect their `max_digits`; the `investment` and
`share_price` foreign keys must exist. -/
def createTransaction (db : DB) (iid spid : Nat) (ttype : Option String)
    (tdate : Nat) (volume : Int) (xrate : Option Int) :
    Except DbError (DB × TransactionRow) :=
  let tt := ttype.getD TransactionType.BUY
  if !(isValidTransactionType tt) then .error .validationError
  else if !(decimalOk 15 volume) then .error .validationError
  else if !((xrate.map (decimalOk 12)).getD true) then .error .validationError
  else if !(db.investments.any (·.id == iid)) then .error .notFound
  else if !(db.sharePrices.any (·.id == spid)) then .error .notFound
  else
    let row : TransactionRow :=
      ⟨freshId (db.transactions.map (·.id)), iid, tt, tdate, spid, xrate, volume⟩
    .ok ({ db with transactions := db.transactions ++ [row] }, row)

/-- Reading back a stored `SharePrice` by id. -/
def findSharePrice (db : DB) (spid : Nat) : Option SharePriceRow :=
  db.sharePrices.find? (·.id == spid)

/-- Reading back a stored `Transaction` by id. -/
def findTransaction (db : DB) (tid : Nat) : Option TransactionRow :=
  db.transactions.find? (·.id == tid)

/-- Deleting a `Portfolio`: `Investment.portfolio` is `on_delete=PROTECT`, so
the delete is rejected while any investment references the portfolio. -/
def deletePortfolio (db : DB) (pid : Nat) : Except DbError DB :=
  if db.investments.any (·.portfolio == pid) then .error .protectedError
  else .ok { db with portfolios := db.portfolios.filter (·.id != pid) }

/-- Deleting a `SharePrice`: `Transaction.share_price` is `on_delete=PROTECT`,
so the delete is rejected while any transaction references the row. -/
def deleteSharePrice (db : DB) (spid : Nat) : Except DbError DB :=
  if db.transactions.any (·.share_price == spid) then .error .protectedError
  else .ok { db with sharePrices := db.sharePrices.filter (·.id != spid) }

/-- Deleting an `Investment`: `Transaction.investment` is `on_delete=CASCADE`
and nothing protects a `Transaction`, so the delete always succeeds and removes
the investment together with exactly its transactions. -/
def deleteInvestment (db : DB) (iid : Nat) : DB :=
  { db with
    investments := db.investments.filter (·.id != iid),
    transactions := db.transactions.filter (·.investment != iid) }

/-- Deleting an `Asset` (of any subtype): `Investment.asset` is
`on_delete=PROTECT`, so the delete is rejected while any investment references
the asset.  `SharePrice.asset` is `on_delete=CASCADE`, so the asset's share
prices are collected for deletion — but `Transaction.share_price` is
`on_delete=PROTECT`, so the whole delete is also rejected while any transaction
references one of those collected share prices (the deletion collector checks
protecting edges into every collected row).  On success the asset, its share
prices and its `funds` many-to-many links are removed. -/
def deleteAsset (db : DB) (aid : Nat) : Except DbError DB :=
  if db.investments.any (·.asset == aid) then .error .protectedError
  else if db.transactions.any (fun t =>
      db.sharePrices.any (fun sp => sp.asset == aid && sp.id == t.share_price))
    then .error .protectedError
  else .ok { db with
    assets := db.assets.filter (·.id != aid),
    sharePrices := db.sharePrices.filter (·.asset != aid),
    fundLinks := db.fundLinks.filter (fun l => l.1 != aid && l.2 != aid) }

/-- Total runner of an asset delete: a rejected delete leaves the database
exactly as it was. -/
def tryDeleteAsset (db : DB) (aid : Nat) : DB :=
  match deleteAsset db aid with
  | .ok db' => db'
  | .error _ => db

/-- Total runner of a portfolio delete: a rejected delete leaves the database
exactly as it was. -/
def tryDeletePortfolio (db : DB) (pid : Nat) : DB :=
  match deletePortfolio db pid with
  | .ok db' => db'
  | .error _ => db

/-- Total runner of a share-price delete: a rejected delete leaves the database
exactly as it was. -/
def tryDeleteSharePrice (db : DB) (spid : Nat) : DB :=
  match deleteSharePrice db spid with
  | .ok db' => db'
  | .error _ => db

/-- Decidable equality of operation outcomes, so concrete runs can be settled
by `decide`. -/
instance {ε α : Type} [DecidableEq ε] [DecidableEq α] : DecidableEq (Except ε α)
  | .ok a, .ok b =>
    if h : a = b then .isTrue (by rw [h]) else .isFalse (by simp [h])
  | .ok _, .error _ => .isFalse (by simp)
  | .error _, .ok _ => .isFalse (by simp)
  | .error e, .error f =>
    if h : e = f then .isTrue (by rw [h]) else .isFalse (by simp [h])

/-! Concrete database states used to instantiate the theorems below.  Each is
reachable through the create operations: assets, portfolios, share prices,
investments and transactions in dependency order.  `dbC1` is the state where a
transaction of an investment in asset 2 references a share price of asset 1
(a cross-reference no schema revision rules out). -/

/-- Concrete state: no investment references asset 1, but transaction 1
references share price 1, which belongs to asset 1. -/
def dbC1 : DB :=
  ⟨[⟨1, "P"⟩],
   [⟨1, "Acme", "US0000000001", "Acme", "", "", none, .base⟩,
    ⟨2, "Beta", "US0000000002", "Beta", "", "", none, .base⟩],
   [⟨1, 1, 0, 100000000, "USD"⟩],
   [⟨1, 1, 2⟩],
   [⟨1, 1, "BUY", 0, 1, none, 10000000⟩],
   []⟩

/-- Concrete state with two investments, each owning one transaction. -/
def dbC2 : DB :=
  ⟨[⟨1, "P"⟩],
   [⟨1, "Acme", "US0000000001", "Acme", "", "", none, .base⟩],
   [⟨1, 1, 0, 1000000, "USD"⟩],
   [⟨1, 1, 1⟩, ⟨2, 1, 1⟩],
   [⟨1, 1, "BUY", 0, 1, none, 1000000⟩, ⟨2, 2, "SAL", 0, 1, none, 2000000⟩],
   []⟩

/-- The transaction of investment 2 inside `dbC2`. -/
def tC2 : TransactionRow := ⟨2, 2, "SAL", 0, 1, none, 2000000⟩

/-- Concrete state where portfolio 1 owns investment 1. -/
def dbC3 : DB :=
  ⟨[⟨1, "P"⟩], [⟨1, "Acme", "US0000000001", "Acme", "", "", none, .base⟩], [],
   [⟨1, 1, 1⟩], [], []⟩

/-- Concrete state where transaction 1 references share price 1. -/
def dbC4 : DB :=
  ⟨[⟨1, "P"⟩], [⟨1, "Acme", "US0000000001", "Acme", "", "", none, .base⟩],
   [⟨1, 1, 0, 1000000, "USD"⟩], [⟨1, 1, 1⟩],
   [⟨1, 1, "BUY", 0, 1, none, 1000000⟩], []⟩

/-- The empty database. -/
def dbC5 : DB := ⟨[], [], [], [], [], []⟩

/-- Concrete state holding one portfolio and one asset. -/
def dbC6 : DB :=
  ⟨[⟨1, "P"⟩], [⟨1, "Acme", "US0000000001", "Acme", "", "", none, .base⟩], [],
   [], [], []⟩

/-- Concrete state ready for recording a transaction. -/
def dbC7 : DB :=
  ⟨[⟨1, "P"⟩], [⟨1, "Acme", "US0000000001", "Acme", "", "", none, .base⟩],
   [⟨1, 1, 0, 1000000, "USD"⟩], [⟨1, 1, 1⟩], [], []⟩

/-- The transaction produced by the default-typed create against `dbC7`. -/
def rowC7 : TransactionRow := ⟨1, 1, "BUY", 0, 1, none, 1000000⟩

/-- The state after the default-typed create against `dbC7`. -/
def dbC7After : DB := { dbC7 with transactions := [rowC7] }

/-- Concrete state ready for recording a transaction. -/
def dbC8 : DB :=
  ⟨[⟨1, "P"⟩], [⟨1, "Acme", "US0000000001", "Acme", "", "", none, .base⟩],
   [⟨1, 1, 0, 1000000, "USD"⟩], [⟨1, 1, 1⟩], [], []⟩

/-- The transaction produced by the fixed-point round-trip create against
`dbC8`: volume 12.345000 and exchange rate 1.234500 in millionths. -/
def rowC8 : TransactionRow := ⟨1, 1, "BUY", 0, 1, some 1234500, 12345000⟩

/-- The state after the fixed-point round-trip create against `dbC8`. -/
def dbC8After : DB := { dbC8 with transactions := [rowC8] }

/-- Concrete state holding just asset 1. -/
def dbC9 : DB :=
  ⟨[], [⟨1, "Acme", "US0000000001", "Acme", "", "", none, .base⟩], [], [], [],
   []⟩

/-- The first share-price entry appended to `dbC9`. -/
def spE1 : SharePriceRow := ⟨1, 1, 10, 5000000, "USD"⟩

/-- The state after appending `spE1` to `dbC9`. -/
def dbC9A : DB := { dbC9 with sharePrices := [spE1] }

/-- The second share-price entry, appended after `spE1` for the same asset. -/
def spE2 : SharePriceRow := ⟨2, 1, 20, 6000000, "USD"⟩

/-- The state after appending `spE2` to `dbC9A`. -/
def dbC9B : DB := { dbC9A with sharePrices := [spE1, spE2] }

/-- Concrete state ready for recording a transaction. -/
def dbC10 : DB :=
  ⟨[⟨1, "P"⟩], [⟨1, "Acme", "US0000000001", "Acme", "", "", none, .base⟩],
   [⟨1, 1, 0, 1000000, "USD"⟩], [⟨1, 1, 1⟩], [], []⟩

/-- The transaction produced by a SALE-typed create against `dbC10`: the
stored code is the three-character `'SAL'`, not the enumeration name. -/
def rowC10 : TransactionRow := ⟨1, 1, "SAL", 0, 1, none, 1000000⟩

/-- The state after the SALE-typed create against `dbC10`. -/
def dbC10After : DB := { dbC10 with transactions := [rowC10] }

/-! Helper lemmas about fresh ids and list lookup. -/

/-- Every member of a list of naturals is bounded by its right fold with
`max`. -/
theorem mem_le_foldr_max (l : List Nat) (x : Nat) (hx : x ∈ l) :
    x ≤ l.foldr max 0 := by
  induction l with
  | nil => cases hx
  | cons a l ih =>
    rcases List.mem_cons.mp hx with h | h
    · subst h; exact le_max_left _ _
    · exact le_trans (ih h) (le_max_right _ _)

/-- A fresh id is strictly larger than every id already in use. -/
theorem mem_lt_freshId (l : List Nat) (x : Nat) (hx : x ∈ l) : x < freshId l :=
  Nat.lt_succ_of_le (mem_le_foldr_max l x hx)

/-- Looking up past non-matching elements finds the first matching element
after them. -/
theorem find?_append_cons {α : Type} (p : α → Bool) (l rest : List α) (a : α)
    (hl : ∀ x ∈ l, p x = false) (ha : p a = true) :
    (l ++ a :: rest).find? p = some a := by
  induction l with
  | nil => simp [List.find?, ha]
  | cons b l ih =>
    have hb : p b = false := hl b (List.mem_cons_self b l)
    simp only [List.cons_append, List.find?, hb]
    exact ih fun x hx => hl x (List.mem_cons_of_mem b hx)

/-- A successful `createSharePrice` appends exactly one row, carrying the
given field values and a fresh id, and touches nothing else. -/
theorem createSharePrice_ok {db : DB} {aid date : Nat} {amount : Int}
    {cur : String} {db' : DB} {row : SharePriceRow}
    (h : createSharePrice db aid date amount cur = .ok (db', row)) :
    row = ⟨freshId (db.sharePrices.map (·.id)), aid, date, amount, cur⟩ ∧
      db' = { db with sharePrices := db.sharePrices ++ [row] } := by
  simp only [createSharePrice] at h
  split at h; · cases h
  split at h; · cases h
  rw [Except.ok.injEq, Prod.mk.injEq] at h
  obtain ⟨hd, hr⟩ := h
  subst hr
  exact ⟨rfl, hd.symm⟩

/-- A successful `createTransaction` appends exactly one row, carrying the
given field values (with the type defaulted to BUY when absent) and a fresh
id, and that stored type passed the `choices` validation. -/
theorem createTransaction_ok {db : DB} {iid spid : Nat} {ttype : Option String}
    {tdate : Nat} {volume : Int} {xrate : Option Int} {db' : DB}
    {row : TransactionRow}
    (h : createTransaction db iid spid ttype tdate volume xrate =
      .ok (db', row)) :
    row = ⟨freshId (db.transactions.map (·.id)), iid,
        ttype.getD TransactionType.BUY, tdate, spid, xrate, volume⟩ ∧
      db' = { db with transactions := db.transactions ++ [row] } ∧
      isValidTransactionType row.transaction_type = true := by
  simp only [createTransaction] at h
  split at h
  · cases h
  rename_i hvalid
  split at h; · cases h
  split at h; · cases h
  split at h; · cases h
  split at h; · cases h
  rw [Except.ok.injEq, Prod.mk.injEq] at h
  obtain ⟨hd, hr⟩ := h
  subst hr
  refine ⟨rfl, hd.symm, ?_⟩
  simpa using hvalid

/-- Claim C1 (amended): `deleteAsset` succeeds exactly when no `Investment`
references the asset and no `Transaction` references a `SharePrice` of the
asset (the cascade to the asset's share prices is blocked by the protecting
`Transaction.share_price` edge); after a successful deletion no `SharePrice`
referencing the asset remains queryable. -/
theorem C1_delete_asset_characterization (db : DB) (aid : Nat) :
    ((deleteAsset db aid).isOk = true ↔
      (∀ inv ∈ db.investments, inv.asset ≠ aid) ∧
      (∀ t ∈ db.transactions, ∀ sp ∈ db.sharePrices,
        sp.asset = aid → t.share_price ≠ sp.id)) ∧
    ((deleteAsset db aid).isOk = true →
      ∀ sp ∈ (tryDeleteAsset db aid).sharePrices, sp.asset ≠ aid) := by
  have h1 : db.investments.any (·.asset == aid) = true ↔
      ∃ inv ∈ db.investments, inv.asset = aid := by simp
  have h2 : (db.transactions.any fun t => db.sharePrices.any fun sp =>
      sp.asset == aid && sp.id == t.share_price) = true ↔
      ∃ t ∈ db.transactions, ∃ sp ∈ db.sharePrices,
        sp.asset = aid ∧ sp.id = t.share_price := by simp
  cases hb1 : db.investments.any (·.asset == aid) with
  | true =>
    have hdel : deleteAsset db aid = .error .protectedError := by
      simp [deleteAsset, hb1]
    constructor
    · rw [hdel]
      constructor
      · intro h; exact absurd h (by simp [Except.isOk, Except.toBool])
      · rintro ⟨hA, -⟩
        obtain ⟨inv, hm, he⟩ := h1.mp hb1
        exact absurd he (hA inv hm)
    · intro h; rw [hdel] at h
      exact absurd h (by simp [Except.isOk, Except.toBool])
  | false =>
    cases hb2 : (db.transactions.any fun t => db.sharePrices.any fun sp =>
        sp.asset == aid && sp.id == t.share_price) with
    | true =>
      have hdel : deleteAsset db aid = .error .protectedError := by
        simp [deleteAsset, hb1, hb2]
      constructor
      · rw [hdel]
        constructor
        · intro h; exact absurd h (by simp [Except.isOk, Except.toBool])
        · rintro ⟨-, hB⟩
          obtain ⟨t, ht, sp, hsp, ha, hi⟩ := h2.mp hb2
          exact absurd hi.symm (hB t ht sp hsp ha)
      · intro h; rw [hdel] at h
        exact absurd h (by simp [Except.isOk, Except.toBool])
    | false =>
      have hdel : deleteAsset db aid = .ok { db with
          assets := db.assets.filter (·.id != aid),
          sharePrices := db.sharePrices.filter (·.asset != aid),
          fundLinks := db.fundLinks.filter
            (fun l => l.1 != aid && l.2 != aid) } := by
        simp [deleteAsset, hb1, hb2]
      have hA : ∀ inv ∈ db.investments, inv.asset ≠ aid := by
        intro inv hm he
        have hc : db.investments.any (·.asset == aid) = true :=
          h1.mpr ⟨inv, hm, he⟩
        rw [hb1] at hc; cases hc
      have hB : ∀ t ∈ db.transactions, ∀ sp ∈ db.sharePrices,
          sp.asset = aid → t.share_price ≠ sp.id := by
        intro t ht sp hsp ha hi
        have hc : (db.transactions.any fun t => db.sharePrices.any fun sp =>
            sp.asset == aid && sp.id == t.share_price) = true :=
          h2.mpr ⟨t, ht, sp, hsp, ha, hi.symm⟩
        rw [hb2] at hc; cases hc
      constructor
      · rw [hdel]
        simp only [Except.isOk, Except.toBool, true_iff]
        exact ⟨hA, hB⟩
      · intro _ sp hsp
        have htry : tryDeleteAsset db aid = { db with
            assets := db.assets.filter (·.id != aid),
            sharePrices := db.sharePrices.filter (·.asset != aid),
            fundLinks := db.fundLinks.filter
              (fun l => l.1 != aid && l.2 != aid) } := by
          simp [tryDeleteAsset, hdel]
        rw [htry] at hsp
        simp only [List.mem_filter] at hsp
        exact bne_iff_ne.mp hsp.2

/-- Claim C1, counterexample to the claim as stated: in `dbC1` no investment
references asset 1, yet `deleteAsset dbC1 1` is rejected, because transaction 1
references share price 1 of asset 1, which the cascade would have to remove. -/
theorem C1_counterexample :
    dbC1.investments.all (fun inv => inv.asset != 1) = true ∧
      deleteAsset dbC1 1 = .error .protectedError :=
  ⟨by decide, by decide⟩

/-- Claim C1, instantiation of the amended characterization at `dbC1` and
asset 1. -/
theorem C1_witness :
    ((deleteAsset dbC1 1).isOk = true ↔
      (∀ inv ∈ dbC1.investments, inv.asset ≠ 1) ∧
      (∀ t ∈ dbC1.transactions, ∀ sp ∈ dbC1.sharePrices,
        sp.asset = 1 → t.share_price ≠ sp.id)) ∧
    ((deleteAsset dbC1 1).isOk = true →
      ∀ sp ∈ (tryDeleteAsset dbC1 1).sharePrices, sp.asset ≠ 1) :=
  C1_delete_asset_characterization dbC1 1

/-- Claim C2: deleting an `Investment` removes exactly the `Transaction` rows
whose `investment` reference equals it — a transaction survives the delete
precisely when it was stored before and belongs to a different investment. -/
theorem C2_delete_investment_cascade (db : DB) (iid : Nat)
    (t : TransactionRow) :
    t ∈ (deleteInvestment db iid).transactions ↔
      t ∈ db.transactions ∧ t.investment ≠ iid := by
  simp [deleteInvestment, List.mem_filter, bne_iff_ne]

/-- Claim C2, instantiation at `dbC2`: the transaction of investment 2
survives deleting investment 1. -/
theorem C2_witness :
    tC2 ∈ (deleteInvestment dbC2 1).transactions ↔
      tC2 ∈ dbC2.transactions ∧ tC2.investment ≠ 1 :=
  C2_delete_investment_cascade dbC2 1 tC2

/-- Claim C3: deleting a `Portfolio` is rejected whenever at least one
`Investment` references it, and the rejected delete leaves the entire prior
state unchanged. -/
theorem C3_delete_portfolio_protected (db : DB) (pid : Nat)
    (h : ∃ inv ∈ db.investments, inv.portfolio = pid) :
    deletePortfolio db pid = .error .protectedError ∧
      tryDeletePortfolio db pid = db := by
  have hb : db.investments.any (·.portfolio == pid) = true := by
    rcases h with ⟨inv, hmem, heq⟩
    exact List.any_eq_true.mpr ⟨inv, hmem, by simpa using heq⟩
  refine ⟨?_, ?_⟩
  · simp [deletePortfolio, hb]
  · simp [tryDeletePortfolio, deletePortfolio, hb]

/-- Claim C3, instantiation at `dbC3`: portfolio 1 owns investment 1, so its
delete is rejected and the state is unchanged. -/
theorem C3_witness :
    deletePortfolio dbC3 1 = .error .protectedError ∧
      tryDeletePortfolio dbC3 1 = dbC3 :=
  C3_delete_portfolio_protected dbC3 1 ⟨⟨1, 1, 1⟩, by decide, rfl⟩

/-- Claim C4: deleting a `SharePrice` is rejected while at least one
`Transaction` references it, and the rejected delete leaves the entire prior
state unchanged, so every recorded transaction keeps its referenced share
price available. -/
theorem C4_delete_share_price_protected (db : DB) (spid : Nat)
    (h : ∃ t ∈ db.transactions, t.share_price = spid) :
    deleteSharePrice db spid = .error .protectedError ∧
      tryDeleteSharePrice db spid = db := by
  have hb : db.transactions.any (·.share_price == spid) = true := by
    rcases h with ⟨t, hmem, heq⟩
    exact List.any_eq_true.mpr ⟨t, hmem, by simpa using heq⟩
  refine ⟨?_, ?_⟩
  · simp [deleteSharePrice, hb]
  · simp [tryDeleteSharePrice, deleteSharePrice, hb]

/-- Claim C4, instantiation at `dbC4`: transaction 1 references share price 1,
so its delete is rejected and the state is unchanged. -/
theorem C4_witness :
    deleteSharePrice dbC4 1 = .error .protectedError ∧
      tryDeleteSharePrice dbC4 1 = dbC4 :=
  C4_delete_share_price_protected dbC4 1
    ⟨⟨1, 1, "BUY", 0, 1, none, 1000000⟩, by decide, rfl⟩

/-- Claim C5: creating a `Portfolio` without supplying a name always succeeds
and yields a portfolio whose `name` equals `"Untitled"`. -/
theorem C5_portfolio_default_name (db : DB) :
    ∃ db' row, createPortfolio db none = .ok (db', row) ∧
      row.name = "Untitled" := by
  refine ⟨{ db with portfolios :=
      db.portfolios ++ [⟨freshId (db.portfolios.map (·.id)), "Untitled"⟩] },
    ⟨freshId (db.portfolios.map (·.id)), "Untitled"⟩, ?_, rfl⟩
  simp [createPortfolio]
  decide

/-- Claim C5, instantiation at the empty database. -/
theorem C5_witness :
    ∃ db' row, createPortfolio dbC5 none = .ok (db', row) ∧
      row.name = "Untitled" :=
  C5_portfolio_default_name dbC5

/-- Claim C6: `createInvestment` succeeds exactly when the referenced
`Portfolio` and `Asset` both exist, and on success the new investment
references exactly that portfolio and that asset and is the only row added. -/
theorem C6_create_investment_references (db : DB) (pid aid : Nat) :
    ((createInvestment db pid aid).isOk = true ↔
      (∃ p ∈ db.portfolios, p.id = pid) ∧ (∃ a ∈ db.assets, a.id = aid)) ∧
    (∀ db' row, createInvestment db pid aid = .ok (db', row) →
      row.portfolio = pid ∧ row.asset = aid ∧
        db'.investments = db.investments ++ [row]) := by
  have hp : db.portfolios.any (·.id == pid) = true ↔
      ∃ p ∈ db.portfolios, p.id = pid := by
    simp [List.any_eq_true]
  have ha : db.assets.any (·.id == aid) = true ↔
      ∃ a ∈ db.assets, a.id = aid := by
    simp [List.any_eq_true]
  constructor
  · cases hbp : db.portfolios.any (·.id == pid) with
    | false =>
      simp only [createInvestment, hbp, Bool.not_false, if_true]
      constructor
      · intro h; cases h
      · rintro ⟨hh1, hh2⟩
        rw [← hp] at hh1; rw [hbp] at hh1; cases hh1
    | true =>
      cases hba : db.assets.any (·.id == aid) with
      | false =>
        simp only [createInvestment, hbp, hba, Bool.not_true, Bool.not_false,
          if_false, if_true]
        constructor
        · intro h; cases h
        · rintro ⟨hh1, hh2⟩
          rw [← ha] at hh2; rw [hba] at hh2; cases hh2
      | true =>
        simp [createInvestment, hbp, hba, Except.isOk, Except.toBool]
        exact ⟨hp.mp hbp, ha.mp hba⟩
  · intro db' row h
    cases hbp : db.portfolios.any (·.id == pid) with
    | false => simp [createInvestment, hbp] at h
    | true =>
      cases hba : db.assets.any (·.id == aid) with
      | false => simp [createInvestment, hbp, hba] at h
      | true =>
        simp only [createInvestment, hbp, hba, Bool.not_true, if_false] at h
        cases h
        exact ⟨rfl, rfl, rfl⟩

/-- Claim C6, instantiation at `dbC6` with portfolio 1 and asset 1. -/
theorem C6_witness :
    ((createInvestment dbC6 1 1).isOk = true ↔
      (∃ p ∈ dbC6.portfolios, p.id = 1) ∧ (∃ a ∈ dbC6.assets, a.id = 1)) ∧
    (∀ db' row, createInvestment dbC6 1 1 = .ok (db', row) →
      row.portfolio = 1 ∧ row.asset = 1 ∧
        db'.investments = dbC6.investments ++ [row]) :=
  C6_create_investment_references dbC6 1 1

/-- Claim C7: the valid transaction types are exactly the five enumerated
kinds; a create without a type stores `TransactionType.BUY`; and a create with
a value outside the enumerated set is rejected at write time with a validation
error. -/
theorem C7_transaction_type_choices (db : DB) (iid spid tdate : Nat)
    (vol : Int) (xr : Option Int) (tt ttq : String) (db' : DB)
    (row : TransactionRow)
    (hok : createTransaction db iid spid none tdate vol xr = .ok (db', row))
    (hbad : isValidTransactionType tt = false) :
    (isValidTransactionType ttq = true ↔
      ttq = TransactionType.BUY ∨ ttq = TransactionType.SALE ∨
      ttq = TransactionType.REINVESTMENT ∨ ttq = TransactionType.REDEMPTION ∨
      ttq = TransactionType.DEPOT_FEE) ∧
    row.transaction_type = TransactionType.BUY ∧
    createTransaction db iid spid (some tt) tdate vol xr =
      .error .validationError := by
  refine ⟨?_, ?_, ?_⟩
  · simp [isValidTransactionType, or_assoc]
  · obtain ⟨hr, -, -⟩ := createTransaction_ok hok
    subst hr
    rfl
  · simp [createTransaction, hbad]

/-- Claim C7, instantiation at `dbC7`: the default-typed create stores BUY and
the type `"XXX"` is rejected. -/
theorem C7_witness :
    (isValidTransactionType "SAL" = true ↔
      "SAL" = TransactionType.BUY ∨ "SAL" = TransactionType.SALE ∨
      "SAL" = TransactionType.REINVESTMENT ∨
      "SAL" = TransactionType.REDEMPTION ∨
      "SAL" = TransactionType.DEPOT_FEE) ∧
    rowC7.transaction_type = TransactionType.BUY ∧
    createTransaction dbC7 1 1 (some "XXX") 0 1000000 none =
      .error .validationError :=
  C7_transaction_type_choices dbC7 1 1 0 1000000 none "XXX" "SAL" dbC7After
    rowC7 (by decide) (by decide)

/-- Claim C8: a `Transaction` created with volume 12.345000 and exchange rate
1.234500 (stored as the scaled fixed-point integers 12345000 and 1234500) and
then re-read by id returns exactly those values, with no rounding drift. -/
theorem C8_decimal_round_trip (db : DB) (iid spid tdate : Nat)
    (ot : Option String) (db' : DB) (row : TransactionRow)
    (hok : createTransaction db iid spid ot tdate 12345000 (some 1234500) =
      .ok (db', row)) :
    findTransaction db' row.id = some row ∧
      row.volume = 12345000 ∧ row.exchange_rate = some 1234500 := by
  obtain ⟨hr, hd, -⟩ := createTransaction_ok hok
  subst hr; subst hd
  refine ⟨?_, rfl, rfl⟩
  apply find?_append_cons
  · intro t ht
    exact beq_eq_false_iff_ne.mpr
      (Nat.ne_of_lt (mem_lt_freshId _ _ (List.mem_map_of_mem _ ht)))
  · simp

/-- Claim C8, instantiation at `dbC8`. -/
theorem C8_witness :
    findTransaction dbC8After rowC8.id = some rowC8 ∧
      rowC8.volume = 12345000 ∧ rowC8.exchange_rate = some 1234500 :=
  C8_decimal_round_trip dbC8 1 1 0 (some TransactionType.BUY) dbC8After rowC8
    (by decide)

/-- Claim C9: appending a second `SharePrice` entry for the same asset leaves
the first entry untouched — reading the first entry back by id after both
creates returns exactly its original asset reference, date and price. -/
theorem C9_share_price_append_only (db : DB) (aid d1 d2 : Nat) (p1 p2 : Int)
    (c1 c2 : String) (db1 db2 : DB) (e1 e2 : SharePriceRow)
    (h1 : createSharePrice db aid d1 p1 c1 = .ok (db1, e1))
    (h2 : createSharePrice db1 aid d2 p2 c2 = .ok (db2, e2)) :
    findSharePrice db2 e1.id = some e1 ∧
      e1.asset = aid ∧ e1.date = d1 ∧ e1.priceAmount = p1 := by
  obtain ⟨he1, hdb1⟩ := createSharePrice_ok h1
  obtain ⟨he2, hdb2⟩ := createSharePrice_ok h2
  subst he1; subst hdb1; subst he2; subst hdb2
  refine ⟨?_, rfl, rfl, rfl⟩
  show ((db.sharePrices ++ [_]) ++ [_]).find? _ = _
  rw [List.append_assoc]
  apply find?_append_cons
  · intro sp hsp
    exact beq_eq_false_iff_ne.mpr
      (Nat.ne_of_lt (mem_lt_freshId _ _ (List.mem_map_of_mem _ hsp)))
  · simp

/-- Claim C9, instantiation at `dbC9`: after both appends the first entry is
returned verbatim. -/
theorem C9_witness :
    findSharePrice dbC9B spE1.id = some spE1 ∧
      spE1.asset = 1 ∧ spE1.date = 10 ∧ spE1.priceAmount = 5000000 :=
  C9_share_price_append_only dbC9 1 10 20 5000000 6000000 "USD" "USD" dbC9A
    dbC9B spE1 spE2 (by decide) (by decide)

/-- Claim C10: the persisted `transaction_type` codes are `'BUY'`, `'SAL'`,
`'REI'`, `'RED'` and `'DPF'` — not the enumeration names — and every stored
transaction's type string has length at most 3. -/
theorem C10_transaction_type_codes (db : DB) (iid spid tdate : Nat)
    (ot : Option String) (vol : Int) (xr : Option Int) (db' : DB)
    (row : TransactionRow)
    (hok : createTransaction db iid spid ot tdate vol xr = .ok (db', row)) :
    TransactionType.BUY = "BUY" ∧ TransactionType.SALE = "SAL" ∧
      TransactionType.REINVESTMENT = "REI" ∧
      TransactionType.REDEMPTION = "RED" ∧
      TransactionType.DEPOT_FEE = "DPF" ∧
      row.transaction_type.length ≤ 3 := by
  refine ⟨rfl, rfl, rfl, rfl, rfl, ?_⟩
  obtain ⟨-, -, hv⟩ := createTransaction_ok hok
  simp only [isValidTransactionType, Bool.or_eq_true, beq_iff_eq,
    or_assoc] at hv
  rcases hv with h | h | h | h | h <;> rw [h] <;> decide

/-- Claim C10, instantiation at `dbC10`: a SALE-typed create stores the
three-character code `'SAL'`. -/
theorem C10_witness :
    TransactionType.BUY = "BUY" ∧ TransactionType.SALE = "SAL" ∧
      TransactionType.REINVESTMENT = "REI" ∧
      TransactionType.REDEMPTION = "RED" ∧
      TransactionType.DEPOT_FEE = "DPF" ∧
      rowC10.transaction_type.length ≤ 3 :=
  C10_transaction_type_codes dbC10 1 1 0 (some TransactionType.SALE) 1000000
    none dbC10After rowC10 (by decide)

end PortfolioModel
